import Mathlib

/-!
Verification of the order-checkout engine of the telegram clothing store.

Shallow embedding of the Python sources:
  * `bot/database/models/product.py` — `Product.effective_price`
  * `bot/services/cart_service.py`   — `get_cart_items`, `get_cart_total`
  * `bot/services/order_service.py`  — `generate_order_number`, `create_order`
  * `bot/utils/validators.py`        — `validate_phone`, `validate_name`,
                                       `validate_address`, `validate_comment`
  * `bot/handlers/user/order.py`     — the checkout FSM step handlers

`Decimal` money values are embedded as `ℚ` (exact arithmetic, as Decimal).
The SQLAlchemy session is embedded as an explicit `DB` record; a lazily
loaded `item.product` relationship is the lookup of `product_id` among the
product rows, so a dangling foreign key appears as `none` exactly where the
Python object's `.product` attribute is `None`.
-/

namespace Store

/-- `OrderStatus` enum from `bot/database/models/order.py`. -/
inductive OrderStatus
  | NEW | PROCESSING | CONFIRMED | PREPARING | READY | DELIVERING | DELIVERED | CANCELLED
deriving DecidableEq, Repr

/-- `DeliveryType` enum from `bot/database/models/order.py`. -/
inductive DeliveryType
  | COURIER | PICKUP
deriving DecidableEq, Repr

/-- `Product` row (`bot/database/models/product.py`): base price, optional
discount price, active flag. -/
structure Product where
  id : Nat
  price : ℚ
  discount_price : Option ℚ
  is_active : Bool
deriving DecidableEq, Repr

/-- `Product.effective_price` (product.py lines 70-73):
`self.discount_price if self.discount_price else self.price`.
A `Decimal` is falsy exactly when it is zero, so a discount price that is
set and nonzero is returned even when it is not below the base price. -/
def Product.effective_price (p : Product) : ℚ :=
  match p.discount_price with
  | some d => if d = 0 then p.price else d
  | none => p.price

/-- `CartItem` row (`bot/database/models/cart_item.py`); the `added_at`
timestamp is not modelled (no claim depends on display ordering). -/
structure CartItem where
  id : Nat
  user_id : Nat
  product_id : Nat
  variant_id : Option Nat
  quantity : Nat
deriving DecidableEq, Repr

/-- `Order` row (`bot/database/models/order.py`); timestamps omitted. -/
structure Order where
  id : Nat
  user_id : Nat
  order_number : String
  total_amount : ℚ
  status : OrderStatus
  customer_name : String
  customer_phone : String
  delivery_type : DeliveryType
  delivery_address : Option String
  comment : Option String
deriving DecidableEq, Repr

/-- `OrderItem` row (`bot/database/models/order_item.py`). -/
structure OrderItem where
  order_id : Nat
  product_id : Nat
  variant_id : Option Nat
  quantity : Nat
  price_at_purchase : ℚ
  subtotal : ℚ
deriving DecidableEq, Repr

/-- One entry of the `order_items_data` list built inside `create_order`
(order_service.py lines 127-133) before the `OrderItem` rows exist. -/
structure OrderItemData where
  product_id : Nat
  variant_id : Option Nat
  quantity : Nat
  price_at_purchase : ℚ
  subtotal : ℚ
deriving DecidableEq, Repr

/-- The persistent store: the tables touched by the checkout engine, plus
the autoincrement counter that `session.flush()` draws order ids from. -/
structure DB where
  products : List Product
  cart_items : List CartItem
  orders : List Order
  order_items : List OrderItem
  next_order_id : Nat
deriving DecidableEq, Repr

/-- Resolution of a `product_id` foreign key, i.e. what
`selectinload(CartItem.product)` puts into `item.product`. -/
def resolveProduct (db : DB) (pid : Nat) : Option Product :=
  db.products.find? (fun p => p.id == pid)

/-- The user's cart rows, i.e. `select(CartItem).where(CartItem.user_id == user_id)`. -/
def userCart (db : DB) (user_id : Nat) : List CartItem :=
  db.cart_items.filter (fun c => c.user_id == user_id)

/-- `get_cart_items` (cart_service.py lines 75-101): every cart row of the
user together with its (possibly failed) product resolution.  A line whose
product no longer resolves is returned with flag `none`, not dropped. -/
def get_cart_items (db : DB) (user_id : Nat) : List (CartItem × Option Product) :=
  (userCart db user_id).map (fun c => (c, resolveProduct db c.product_id))

/-- `get_cart_total` (cart_service.py lines 229-253): sums
`effective_price * quantity` over lines whose product resolves AND is
active (`if item.product and item.product.is_active`). -/
def get_cart_total (db : DB) (user_id : Nat) : ℚ :=
  (get_cart_items db user_id).foldl
    (fun total cp =>
      match cp.2 with
      | some p => if p.is_active then total + p.effective_price * (cp.1.quantity : ℚ) else total
      | none => total)
    0

/-- Python `f"{n:03d}"`: decimal digits of `n` left-padded with zeros to
width 3. -/
def pad3 (n : Nat) : String :=
  let s := toString n
  if s.length < 3 then String.mk (List.replicate (3 - s.length) '0') ++ s else s

/-- `ORD-YYYYMMDD-` day tag used by `generate_order_number`. -/
def dayTag (today : String) : String :=
  "ORD-" ++ today ++ "-"

/-- SQL `LIKE 'prefix%'` on order numbers. -/
def likeStartsWith (pat s : String) : Bool :=
  pat.toList.isPrefixOf s.toList

/-- The `COUNT` query inside `generate_order_number` (order_service.py
lines 36-41): number of existing orders whose number starts with the day tag. -/
def countTodayOrders (db : DB) (today : String) : Nat :=
  (db.orders.filter (fun o => likeStartsWith (dayTag today) o.order_number)).length

/-- `generate_order_number` (order_service.py lines 19-46):
`f"{prefix}{count + 1:03d}"` for today's date. -/
def generate_order_number (db : DB) (today : String) : String :=
  dayTag today ++ pad3 (countTodayOrders db today + 1)

/-- The loop body of `create_order` (order_service.py lines 119-133): an
unresolvable line is skipped (`continue`); a resolvable line contributes
`price_at_purchase = effective_price` and `subtotal = price * quantity`. -/
def orderFoldStep (db : DB) (acc : ℚ × List OrderItemData) (item : CartItem) :
    ℚ × List OrderItemData :=
  match resolveProduct db item.product_id with
  | none => acc
  | some product =>
    let price := product.effective_price
    let subtotal := price * (item.quantity : ℚ)
    (acc.1 + subtotal,
     acc.2 ++ [⟨item.product_id, item.variant_id, item.quantity, price, subtotal⟩])

/-- `create_order` (order_service.py lines 76-174).  `today` stands for
`datetime.now().strftime("%Y%m%d")`.  Returns the created order (or `none`
for an empty cart) together with the post-transaction store. -/
def create_order (today : String) (db : DB) (user_id : Nat)
    (customer_name customer_phone : String) (delivery_type : DeliveryType)
    (delivery_address : Option String) (comment : Option String) :
    Option Order × DB :=
  let cart_items := userCart db user_id
  if cart_items.isEmpty then (none, db)
  else
    let acc := cart_items.foldl (orderFoldStep db) ((0 : ℚ), ([] : List OrderItemData))
    let total_amount := acc.1
    let order_items_data := acc.2
    let order_number := generate_order_number db today
    let order : Order :=
      { id := db.next_order_id
        user_id := user_id
        order_number := order_number
        total_amount := total_amount
        status := OrderStatus.NEW
        customer_name := customer_name
        customer_phone := customer_phone
        delivery_type := delivery_type
        delivery_address := delivery_address
        comment := comment }
    let new_items := order_items_data.map (fun d =>
      OrderItem.mk order.id d.product_id d.variant_id d.quantity d.price_at_purchase d.subtotal)
    (some order,
     { db with
        orders := db.orders ++ [order]
        order_items := db.order_items ++ new_items
        cart_items := db.cart_items.filter (fun c => !(c.user_id == user_id))
        next_order_id := db.next_order_id + 1 })

/-! ## Validators (`bot/utils/validators.py`) -/

/-- `re.sub(r'[^\d+]', '', phone)` (validators.py line 25): drop every
character that is neither a digit nor `+`. -/
def cleanPhone (l : List Char) : List Char :=
  l.filter (fun c => c.isDigit || c == '+')

/-- `re.match(r'^\+?\d+$', cleaned)` (validators.py line 28): an optional
single leading `+` followed by at least one digit and nothing else. -/
def matchesPlusDigits (l : List Char) : Bool :=
  let rest := if l.head? = some '+' then l.tail else l
  !rest.isEmpty && rest.all Char.isDigit

/-- `cleaned.lstrip('+')` (validators.py line 32). -/
def lstripPlus : List Char → List Char
  | [] => []
  | c :: rest => if c = '+' then lstripPlus rest else c :: rest

/-- Lines 35-40 of validators.py: a leading `8` becomes `7`, and a `7` is
prepended when the digits do not already start with `7`. -/
def normalizeDigits (l : List Char) : List Char :=
  let l1 := if l.head? = some '8' then '7' :: l.tail else l
  if l1.head? = some '7' then l1 else '7' :: l1

/-- The f-string on line 51 of validators.py:
`+{d[0]} ({d[1:4]}) {d[4:7]}-{d[7:9]}-{d[9:11]}`. -/
def formatChars (d : List Char) : List Char :=
  '+' :: d.take 1 ++ ' ' :: '(' :: (d.drop 1).take 3 ++ ')' :: ' ' :: (d.drop 4).take 3
    ++ '-' :: (d.drop 7).take 2 ++ '-' :: (d.drop 9).take 2

/-- Rejection reason of validators.py line 29. -/
def phoneErrChars : String := "Номер телефона должен содержать только цифры"

/-- Rejection reason of validators.py line 44 (note that its own example
number `+7 900 123-45-67` has a zero third digit). -/
def phoneErrLen : String :=
  "Номер телефона должен содержать 11 цифр (например: +7 900 123-45-67)"

/-- Rejection reason of validators.py line 48. -/
def phoneErrOp : String := "Некорректный код оператора"

/-- `validate_phone` (validators.py lines 7-53). -/
def validate_phone (phone : String) : Bool × String :=
  let cleaned := cleanPhone phone.toList
  if ¬ matchesPlusDigits cleaned then (false, phoneErrChars)
  else
    let digits_only := normalizeDigits (lstripPlus cleaned)
    if digits_only.length ≠ 11 then (false, phoneErrLen)
    else if digits_only.get? 1 = some '0' ∨ digits_only.get? 2 = some '0' then
      (false, phoneErrOp)
    else (true, String.mk (formatChars digits_only))

/-- Python `str.strip()`: drop leading and trailing whitespace. -/
def pyStrip (s : String) : String :=
  String.mk (((s.toList.dropWhile Char.isWhitespace).reverse.dropWhile
    Char.isWhitespace).reverse)

/-- The character class `[а-яА-ЯёЁa-zA-Z\s\-]` of validators.py line 77. -/
def nameAllowedChar (c : Char) : Bool :=
  (decide ('а' ≤ c) && decide (c ≤ 'я')) || (decide ('А' ≤ c) && decide (c ≤ 'Я'))
    || c == 'ё' || c == 'Ё'
    || (decide ('a' ≤ c) && decide (c ≤ 'z')) || (decide ('A' ≤ c) && decide (c ≤ 'Z'))
    || c == ' ' || c == '\t' || c == '\n' || c == '\r' || c == '\x0b' || c == '\x0c'
    || c == '-'

/-- `validate_name` (validators.py lines 56-80). -/
def validate_name (name : String) : Bool × String :=
  let name := pyStrip name
  if name.length < 2 then (false, "Имя слишком короткое (минимум 2 символа)")
  else if name.length > 100 then (false, "Имя слишком длинное (максимум 100 символов)")
  else if ¬ name.toList.all nameAllowedChar then
    (false, "Имя может содержать только буквы, пробелы и дефисы")
  else (true, "")

/-- `validate_address` (validators.py lines 83-103). -/
def validate_address (address : String) : Bool × String :=
  let address := pyStrip address
  if address.length < 10 then (false, "Адрес слишком короткий (минимум 10 символов)")
  else if address.length > 500 then (false, "Адрес слишком длинный (максимум 500 символов)")
  else (true, "")

/-- `validate_comment` (validators.py lines 106-123). -/
def validate_comment (comment : String) : Bool × String :=
  let comment := pyStrip comment
  if comment.length > 1000 then (false, "Комментарий слишком длинный (максимум 1000 символов)")
  else (true, "")

/-! ## Checkout FSM step handlers (`bot/handlers/user/order.py`)

An aiogram `FSMContext` holds a current state tag and a data dict; a step
handler that detects invalid input answers with the rejection reason and
`return`s before any `state.set_state` / `state.update_data` call, leaving
the session untouched. -/

/-- `OrderStates` (bot/states/order_states.py). -/
inductive OrderState
  | waiting_for_name | waiting_for_phone | waiting_for_delivery_type
  | waiting_for_address | waiting_for_comment | waiting_for_confirmation
deriving DecidableEq, Repr

/-- The data dict accumulated by the checkout dialogue. -/
structure SessionData where
  customer_name : Option String
  customer_phone : Option String
  delivery_type : Option DeliveryType
  delivery_address : Option String
  comment : Option String
deriving DecidableEq, Repr

/-- The per-user `FSMContext`: current state tag plus collected data. -/
structure FSMSession where
  state : Option OrderState
  data : SessionData
deriving DecidableEq, Repr

/-- What a step handler sends back: a re-prompt carrying the validator's
rejection reason, or progression to the next prompt. -/
inductive StepReply
  | reprompt (reason : String)
  | proceed
deriving DecidableEq, Repr

/-- `process_name` (order.py lines 77-113). -/
def process_name (sess : FSMSession) (text : String) : FSMSession × StepReply :=
  let name := pyStrip text
  let v := validate_name name
  if v.1 = false then (sess, StepReply.reprompt v.2)
  else
    ({ state := some OrderState.waiting_for_phone
       data := { sess.data with customer_name := some name } },
     StepReply.proceed)

/-- `process_phone` (order.py lines 115-157). -/
def process_phone (sess : FSMSession) (text : String) : FSMSession × StepReply :=
  let phone := pyStrip text
  let v := validate_phone phone
  if v.1 = false then (sess, StepReply.reprompt v.2)
  else
    ({ state := some OrderState.waiting_for_delivery_type
       data := { sess.data with customer_phone := some v.2 } },
     StepReply.proceed)

/-- `process_address` (order.py lines 221-267). -/
def process_address (sess : FSMSession) (text : String) : FSMSession × StepReply :=
  let address := pyStrip text
  let v := validate_address address
  if v.1 = false then (sess, StepReply.reprompt v.2)
  else
    ({ state := some OrderState.waiting_for_comment
       data := { sess.data with delivery_address := some address } },
     StepReply.proceed)

/-- `process_comment` (order.py lines 296-330); on success
`show_confirmation` moves the session to `waiting_for_confirmation`. -/
def process_comment (sess : FSMSession) (text : String) : FSMSession × StepReply :=
  let comment := pyStrip text
  let v := validate_comment comment
  if v.1 = false then (sess, StepReply.reprompt v.2)
  else
    ({ state := some OrderState.waiting_for_confirmation
       data := { sess.data with comment := some comment } },
     StepReply.proceed)

/-! ## Spec-side vocabulary -/

/-- The lines of `l` whose product resolves, paired with the resolved
product. -/
def resolvedOf (db : DB) (l : List CartItem) : List (CartItem × Product) :=
  l.filterMap (fun c => (resolveProduct db c.product_id).map (fun p => (c, p)))

/-- The cart lines whose product resolves, paired with the resolved
product (the lines `create_order` turns into order items). -/
def resolvedCart (db : DB) (user_id : Nat) : List (CartItem × Product) :=
  resolvedOf db (userCart db user_id)

/-- `effective_price(product) × quantity` of one resolved line. -/
def lineAmount (cp : CartItem × Product) : ℚ :=
  cp.2.effective_price * (cp.1.quantity : ℚ)

/-- The `order_items_data` entry a resolved line contributes. -/
def lineItemData (cp : CartItem × Product) : OrderItemData :=
  ⟨cp.1.product_id, cp.1.variant_id, cp.1.quantity, cp.2.effective_price, lineAmount cp⟩

/-- The `OrderItem` row a resolved line contributes to order `oid`. -/
def lineOrderItem (oid : Nat) (cp : CartItem × Product) : OrderItem :=
  ⟨oid, cp.1.product_id, cp.1.variant_id, cp.1.quantity, cp.2.effective_price, lineAmount cp⟩

/-- The canonical `+D (DDD) DDD-DD-DD` shape of §8 of the spec. -/
def isCanonicalShape (s : String) : Bool :=
  match s.toList with
  | ['+', a, ' ', '(', b, c, d, ')', ' ', e, f, g, '-', h, i, '-', j, k] =>
     [a, b, c, d, e, f, g, h, i, j, k].all Char.isDigit
  | _ => false

/-- Number of digit characters of a string. -/
def digitCount (s : String) : Nat :=
  (s.toList.filter Char.isDigit).length

/-- The digit list `validate_phone` works on after cleaning, `+`-stripping
and `8`/`7` normalization. -/
def phoneDigits (s : String) : List Char :=
  normalizeDigits (lstripPlus (cleanPhone s.toList))

/-- Closed form of the order a successful `create_order` call builds. -/
def createdOrder (today : String) (db : DB) (user_id : Nat)
    (customer_name customer_phone : String) (delivery_type : DeliveryType)
    (delivery_address : Option String) (comment : Option String) : Order :=
  { id := db.next_order_id
    user_id := user_id
    order_number := generate_order_number db today
    total_amount := ((resolvedCart db user_id).map lineAmount).sum
    status := OrderStatus.NEW
    customer_name := customer_name
    customer_phone := customer_phone
    delivery_type := delivery_type
    delivery_address := delivery_address
    comment := comment }

/-- Closed form of the store state a successful `create_order` call leaves. -/
def createdDB (today : String) (db : DB) (user_id : Nat)
    (customer_name customer_phone : String) (delivery_type : DeliveryType)
    (delivery_address : Option String) (comment : Option String) : DB :=
  { db with
      orders := db.orders ++
        [createdOrder today db user_id customer_name customer_phone delivery_type
          delivery_address comment]
      order_items := db.order_items ++
        (resolvedCart db user_id).map (lineOrderItem db.next_order_id)
      cart_items := db.cart_items.filter (fun c => !(c.user_id == user_id))
      next_order_id := db.next_order_id + 1 }

/-! ## Concrete scenario stores -/

/-- §8 scenario store: user 1's cart holds qty 2 of a 500.00 product and
qty 1 of a 1500.00 product. -/
def db5 : DB :=
  { products := [⟨1, 500, none, true⟩, ⟨2, 1500, none, true⟩]
    cart_items := [⟨1, 1, 1, none, 2⟩, ⟨2, 1, 2, none, 1⟩]
    orders := []
    order_items := []
    next_order_id := 1 }

/-- A store with an empty cart for user 1. -/
def dbEmptyCart : DB :=
  { products := [⟨1, 500, none, true⟩]
    cart_items := [⟨1, 2, 1, none, 1⟩]
    orders := []
    order_items := []
    next_order_id := 1 }

/-- A store where user 1's cart holds one resolvable line (product 1) and
one line whose `product_id` 99 resolves to nothing. -/
def db7 : DB :=
  { products := [⟨1, 100, none, true⟩]
    cart_items := [⟨1, 1, 1, none, 1⟩, ⟨2, 1, 99, none, 3⟩]
    orders := []
    order_items := []
    next_order_id := 1 }

/-- A store where user 1's cart holds one line whose product resolves but
is inactive (price 100, qty 2). -/
def db10 : DB :=
  { products := [⟨1, 100, none, false⟩]
    cart_items := [⟨1, 1, 1, none, 2⟩]
    orders := []
    order_items := []
    next_order_id := 1 }

/-- A product whose discount price 200 is set but higher than its base
price 100. -/
def c3Product : Product := ⟨1, 100, some 200, true⟩

/-- A session sitting at the phone prompt with nothing else collected. -/
def sessPhone : FSMSession :=
  ⟨some OrderState.waiting_for_phone, ⟨some "Ivan Petrov", none, none, none, none⟩⟩

/-! ## Helper lemmas -/

theorem resolvedOf_nil (db : DB) : resolvedOf db [] = [] := rfl

theorem resolvedOf_cons (db : DB) (c : CartItem) (l : List CartItem) :
    resolvedOf db (c :: l) =
      match resolveProduct db c.product_id with
      | none => resolvedOf db l
      | some p => (c, p) :: resolvedOf db l := by
  cases h : resolveProduct db c.product_id <;> simp [resolvedOf, List.filterMap_cons, h]

/-- A member of `resolvedOf` is a member of the underlying list whose
product resolves to the paired product. -/
theorem mem_resolvedOf {db : DB} {l : List CartItem} {cp : CartItem × Product}
    (h : cp ∈ resolvedOf db l) :
    cp.1 ∈ l ∧ resolveProduct db cp.1.product_id = some cp.2 := by
  obtain ⟨a, ha, hfa⟩ := (List.mem_filterMap ..).mp h
  obtain ⟨p, hp, hap⟩ := Option.map_eq_some'.mp hfa
  cases hap
  exact ⟨ha, hp⟩

/-- A resolved product is one of the product rows. -/
theorem resolveProduct_mem {db : DB} {pid : Nat} {p : Product}
    (h : resolveProduct db pid = some p) : p ∈ db.products :=
  List.mem_of_find?_eq_some h

/-- Closed form of the accumulation loop of `create_order`: starting from
`(t, ds)` it adds the amounts of the resolvable lines to `t` and appends
their `order_items_data` entries to `ds`. -/
theorem orderFold_eq (db : DB) :
    ∀ (l : List CartItem) (t : ℚ) (ds : List OrderItemData),
      l.foldl (orderFoldStep db) (t, ds) =
        (t + ((resolvedOf db l).map lineAmount).sum,
         ds ++ (resolvedOf db l).map lineItemData)
  | [], t, ds => by simp [resolvedOf]
  | c :: l, t, ds => by
    rw [List.foldl_cons, orderFoldStep, resolvedOf_cons]
    cases h : resolveProduct db c.product_id with
    | none => simpa using orderFold_eq db l t ds
    | some p =>
      rw [orderFold_eq db l]
      simp [lineAmount, lineItemData, h, add_assoc]

/-- Filtering the user's rows out and then filtering for them yields
nothing. -/
theorem filter_user_out (l : List CartItem) (uid : Nat) :
    (l.filter (fun c => !(c.user_id == uid))).filter (fun c => c.user_id == uid) = [] := by
  induction l with
  | nil => rfl
  | cons c l ih =>
    by_cases h : c.user_id == uid <;> simp [List.filter_cons, h, ih]

/-- On a non-empty cart `create_order` returns exactly the closed-form
order and store. -/
theorem create_order_eq (today : String) (db : DB) (uid : Nat) (n ph : String)
    (dt : DeliveryType) (a c : Option String) (h : userCart db uid ≠ []) :
    create_order today db uid n ph dt a c =
      (some (createdOrder today db uid n ph dt a c), createdDB today db uid n ph dt a c) := by
  unfold create_order
  rw [if_neg (by simpa [List.isEmpty_iff] using h)]
  rw [orderFold_eq db (userCart db uid) 0 []]
  simp only [zero_add, List.nil_append, List.map_map]
  unfold createdOrder createdDB
  refine congrArg₂ Prod.mk ?_ ?_
  · rfl
  · simp only [DB.mk.injEq, and_true, true_and]
    constructor
    · rfl
    · refine congrArg _ (List.map_congr_left (fun cp _ => ?_))
      simp [Function.comp, lineItemData, lineOrderItem]

/-- Closed form of the accumulation loop of `get_cart_total`: only the
resolvable lines whose product is active contribute. -/
theorem cartTotalFold_eq (db : DB) :
    ∀ (l : List CartItem) (t : ℚ),
      (l.map (fun c => (c, resolveProduct db c.product_id))).foldl
        (fun total cp =>
          match cp.2 with
          | some p => if p.is_active then total + p.effective_price * (cp.1.quantity : ℚ)
                      else total
          | none => total) t =
      t + (((resolvedOf db l).filter (fun cp => cp.2.is_active)).map lineAmount).sum
  | [], t => by simp [resolvedOf]
  | c :: l, t => by
    rw [List.map_cons, List.foldl_cons, resolvedOf_cons]
    cases h : resolveProduct db c.product_id with
    | none => simpa using cartTotalFold_eq db l t
    | some p =>
      by_cases hp : p.is_active
      · rw [cartTotalFold_eq db l]
        simp [hp, lineAmount, add_assoc]
      · rw [cartTotalFold_eq db l]
        simp [hp, lineAmount]

/-- `get_cart_total` in spec form: the sum of `effective_price × quantity`
over resolvable active lines. -/
theorem get_cart_total_eq (db : DB) (uid : Nat) :
    get_cart_total db uid =
      (((resolvedCart db uid).filter (fun cp => cp.2.is_active)).map lineAmount).sum := by
  unfold get_cart_total get_cart_items resolvedCart
  rw [cartTotalFold_eq db (userCart db uid) 0, zero_add]

/-- A list is a Boolean prefix of itself followed by anything. -/
theorem isPrefixOf_append_self (l₁ l₂ : List Char) : l₁.isPrefixOf (l₁ ++ l₂) = true := by
  induction l₁ with
  | nil => simp [List.isPrefixOf]
  | cons a l ih => simp [List.isPrefixOf, ih]

/-- `LIKE 'p%'` succeeds on `p ++ s`. -/
theorem likeStartsWith_append (p s : String) : likeStartsWith p (p ++ s) = true := by
  unfold likeStartsWith
  rw [show (p ++ s).toList = p.toList ++ s.toList by simp [String.toList, String.data_append]]
  exact isPrefixOf_append_self p.toList s.toList

/-- A list of nonnegative rationals with a positive member has positive sum. -/
theorem sum_pos_of_mem_pos :
    ∀ (l : List ℚ), (∀ x ∈ l, 0 ≤ x) → ∀ x ∈ l, 0 < x → 0 < l.sum
  | [], _, x, hx, _ => by simp at hx
  | a :: l, hnn, x, hx, hpos => by
    rcases List.mem_cons.mp hx with rfl | hmem
    · have : 0 ≤ l.sum := List.sum_nonneg (fun y hy => hnn y (List.mem_cons_of_mem _ hy))
      simpa using add_pos_of_pos_of_nonneg hpos this
    · have ha : 0 ≤ a := hnn a (List.mem_cons_self a l)
      have : 0 < l.sum :=
        sum_pos_of_mem_pos l (fun y hy => hnn y (List.mem_cons_of_mem _ hy)) x hmem hpos
      simpa using add_pos_of_nonneg_of_pos ha this

/-- Splitting a mapped sum along a Boolean filter. -/
theorem sum_map_split (p : CartItem × Product → Bool) (f : CartItem × Product → ℚ)
    (l : List (CartItem × Product)) :
    (l.map f).sum = ((l.filter p).map f).sum + ((l.filter (fun x => !p x)).map f).sum := by
  have hperm : List.Perm ((l.filter p ++ l.filter (fun x => !p x)).map f) (l.map f) :=
    (List.filter_append_perm p l).map f
  rw [← hperm.sum_eq, List.map_append, List.sum_append]

/-! ## Phone validator lemmas -/

/-- `lstrip('+')` does nothing to an all-digit list. -/
theorem lstripPlus_of_all_digits (l : List Char) (h : l.all Char.isDigit = true) :
    lstripPlus l = l := by
  cases l with
  | nil => rfl
  | cons c rest =>
    rw [List.all_cons, Bool.and_eq_true] at h
    have hc : ¬ c = '+' := by
      intro he
      subst he
      exact absurd h.1 (by decide)
    simp [lstripPlus, hc]

/-- A regex match `^\+?\d+$` leaves, after `lstrip('+')`, a non-empty
all-digit list. -/
theorem matchesPlusDigits_spec (l : List Char) (h : matchesPlusDigits l = true) :
    lstripPlus l ≠ [] ∧ (lstripPlus l).all Char.isDigit = true := by
  unfold matchesPlusDigits at h
  by_cases hh : l.head? = some '+'
  · rw [if_pos hh, Bool.and_eq_true] at h
    cases l with
    | nil => simp at hh
    | cons c rest =>
      have hc : c = '+' := by simpa using hh
      subst hc
      have hall : rest.all Char.isDigit = true := by simpa using h.2
      have hne : rest ≠ [] := by
        intro he
        subst he
        simp at h
      rw [show lstripPlus ('+' :: rest) = lstripPlus rest by simp [lstripPlus]]
      rw [lstripPlus_of_all_digits rest hall]
      exact ⟨hne, hall⟩
  · rw [if_neg hh, Bool.and_eq_true] at h
    rw [lstripPlus_of_all_digits l h.2]
    refine ⟨?_, h.2⟩
    intro he
    subst he
    simp at h

/-- After the `8`/`7` fix-ups the digit list always starts with `7`. -/
theorem normalizeDigits_head (l : List Char) : (normalizeDigits l).head? = some '7' := by
  by_cases h8 : l.head? = some '8'
  · simp [normalizeDigits, h8]
  · by_cases h7 : l.head? = some '7'
    · simp [normalizeDigits, h8, h7]
    · simp [normalizeDigits, h8, h7]

/-- The `8`/`7` fix-ups preserve all-digitness. -/
theorem normalizeDigits_all (l : List Char) (h : l.all Char.isDigit = true) :
    (normalizeDigits l).all Char.isDigit = true := by
  have h7d : ('7' : Char).isDigit = true := by decide
  by_cases h8 : l.head? = some '8'
  · cases l with
    | nil => simp at h8
    | cons c rest =>
      rw [List.all_cons, Bool.and_eq_true] at h
      simp [normalizeDigits, h8, List.all_cons, h7d, h.2]
  · by_cases h7 : l.head? = some '7'
    · simp [normalizeDigits, h8, h7, h]
    · simp [normalizeDigits, h8, h7, List.all_cons, h7d, h]

/-- A list of length 11 is an 11-tuple of elements. -/
theorem exists_eleven {α : Type} {l : List α} (h : l.length = 11) :
    ∃ c0 c1 c2 c3 c4 c5 c6 c7 c8 c9 c10,
      l = [c0, c1, c2, c3, c4, c5, c6, c7, c8, c9, c10] := by
  rcases l with _ | ⟨c0, l⟩
  · simp at h
  rcases l with _ | ⟨c1, l⟩
  · simp at h
  rcases l with _ | ⟨c2, l⟩
  · simp at h
  rcases l with _ | ⟨c3, l⟩
  · simp at h
  rcases l with _ | ⟨c4, l⟩
  · simp at h
  rcases l with _ | ⟨c5, l⟩
  · simp at h
  rcases l with _ | ⟨c6, l⟩
  · simp at h
  rcases l with _ | ⟨c7, l⟩
  · simp at h
  rcases l with _ | ⟨c8, l⟩
  · simp at h
  rcases l with _ | ⟨c9, l⟩
  · simp at h
  rcases l with _ | ⟨c10, l⟩
  · simp at h
  rcases l with _ | ⟨c11, l⟩
  · exact ⟨c0, c1, c2, c3, c4, c5, c6, c7, c8, c9, c10, rfl⟩
  · simp [List.length_cons] at h

/-- The canonical formatting of an accepted 11-digit list starting with
`7`: it has 11 digits, the canonical shape, and `validate_phone` maps it
to itself. -/
theorem validate_phone_roundtrip_core (l : List Char)
    (hall : l.all Char.isDigit = true) (hhead : l.head? = some '7') (hlen : l.length = 11)
    (h1 : ¬ l.get? 1 = some '0') (h2 : ¬ l.get? 2 = some '0') :
    digitCount (String.mk (formatChars l)) = 11 ∧
    isCanonicalShape (String.mk (formatChars l)) = true ∧
    validate_phone (String.mk (formatChars l)) = (true, String.mk (formatChars l)) := by
  obtain ⟨c0, c1, c2, c3, c4, c5, c6, c7, c8, c9, c10, rfl⟩ := exists_eleven hlen
  have hc0 : c0 = '7' := by simpa using hhead
  subst hc0
  simp only [List.all_cons, Bool.and_eq_true, List.all_nil, and_true] at hall
  obtain ⟨-, h1d, h2d, h3d, h4d, h5d, h6d, h7d, h8d, h9d, h10d⟩ := hall
  have h1' : ¬ c1 = '0' := by simpa using h1
  have h2' : ¬ c2 = '0' := by simpa using h2
  have hfmt : formatChars ['7', c1, c2, c3, c4, c5, c6, c7, c8, c9, c10] =
      ['+', '7', ' ', '(', c1, c2, c3, ')', ' ', c4, c5, c6, '-', c7, c8, '-', c9, c10] := rfl
  rw [hfmt]
  have hpnd : ('+' : Char).isDigit = false := by decide
  have hsnd : (' ' : Char).isDigit = false := by decide
  have hond : ('(' : Char).isDigit = false := by decide
  have hcnd : (')' : Char).isDigit = false := by decide
  have hdnd : ('-' : Char).isDigit = false := by decide
  have h7dig : ('7' : Char).isDigit = true := by decide
  refine ⟨?_, ?_, ?_⟩
  · simp [digitCount, String.toList, List.filter_cons, hpnd, hsnd, hond, hcnd, hdnd,
      h7dig, h1d, h2d, h3d, h4d, h5d, h6d, h7d, h8d, h9d, h10d]
  · simp [isCanonicalShape, String.toList, List.all_cons, h7dig,
      h1d, h2d, h3d, h4d, h5d, h6d, h7d, h8d, h9d, h10d]
  · have hclean : cleanPhone ['+', '7', ' ', '(', c1, c2, c3, ')', ' ', c4, c5, c6,
        '-', c7, c8, '-', c9, c10] =
        '+' :: '7' :: c1 :: c2 :: c3 :: c4 :: c5 :: c6 :: c7 :: c8 :: c9 :: c10 :: [] := by
      simp [cleanPhone, List.filter_cons, hpnd, hsnd, hond, hcnd, hdnd, h7dig,
        h1d, h2d, h3d, h4d, h5d, h6d, h7d, h8d, h9d, h10d]
    have hmatch : matchesPlusDigits ('+' :: '7' :: c1 :: c2 :: c3 :: c4 :: c5 :: c6 ::
        c7 :: c8 :: c9 :: c10 :: []) = true := by
      simp [matchesPlusDigits, List.all_cons, h7dig,
        h1d, h2d, h3d, h4d, h5d, h6d, h7d, h8d, h9d, h10d]
    have hstrip : lstripPlus ('+' :: '7' :: c1 :: c2 :: c3 :: c4 :: c5 :: c6 ::
        c7 :: c8 :: c9 :: c10 :: []) =
        '7' :: c1 :: c2 :: c3 :: c4 :: c5 :: c6 :: c7 :: c8 :: c9 :: c10 :: [] := by
      simp [lstripPlus]
    have hnorm : normalizeDigits ('7' :: c1 :: c2 :: c3 :: c4 :: c5 :: c6 ::
        c7 :: c8 :: c9 :: c10 :: []) =
        '7' :: c1 :: c2 :: c3 :: c4 :: c5 :: c6 :: c7 :: c8 :: c9 :: c10 :: [] := by
      simp [normalizeDigits]
    unfold validate_phone
    rw [show (String.mk ['+', '7', ' ', '(', c1, c2, c3, ')', ' ', c4, c5, c6, '-', c7,
      c8, '-', c9, c10]).toList = ['+', '7', ' ', '(', c1, c2, c3, ')', ' ', c4, c5, c6,
      '-', c7, c8, '-', c9, c10] from rfl]
    rw [hclean]
    rw [if_neg (not_not_intro hmatch)]
    rw [hstrip, hnorm]
    rw [if_neg (by simp)]
    rw [if_neg ?hop]
    case hop =>
      rintro (hx | hx)
      · exact h1' (by simpa using hx)
      · exact h2' (by simpa using hx)
    rw [hfmt]

/-- Inversion of an accepted `validate_phone` run: the regex matched, the
normalized digits have length 11, the operator-code digits are nonzero,
and the output is the canonical formatting of the normalized digits. -/
theorem validate_phone_accepted_inv {s t : String}
    (h : validate_phone s = (true, t)) :
    matchesPlusDigits (cleanPhone s.toList) = true ∧
    (normalizeDigits (lstripPlus (cleanPhone s.toList))).length = 11 ∧
    ¬ (normalizeDigits (lstripPlus (cleanPhone s.toList))).get? 1 = some '0' ∧
    ¬ (normalizeDigits (lstripPlus (cleanPhone s.toList))).get? 2 = some '0' ∧
    t = String.mk (formatChars (normalizeDigits (lstripPlus (cleanPhone s.toList)))) := by
  unfold validate_phone at h
  by_cases hm : matchesPlusDigits (cleanPhone s.toList) = true
  · rw [if_neg (not_not_intro hm)] at h
    by_cases hl : (normalizeDigits (lstripPlus (cleanPhone s.toList))).length = 11
    · rw [if_neg (fun hne => hne hl)] at h
      by_cases hop : (normalizeDigits (lstripPlus (cleanPhone s.toList))).get? 1 = some '0'
          ∨ (normalizeDigits (lstripPlus (cleanPhone s.toList))).get? 2 = some '0'
      · rw [if_pos hop] at h
        simp at h
      · rw [if_neg hop] at h
        have ht : String.mk (formatChars (normalizeDigits (lstripPlus
            (cleanPhone s.toList)))) = t := by
          simpa using congrArg Prod.snd h
        push_neg at hop
        exact ⟨hm, hl, hop.1, hop.2, ht.symm⟩
    · rw [if_pos hl] at h
      simp at h
  · rw [if_pos hm] at h
    simp at h

/-- Every accepted `validate_phone` output has 11 digits, the canonical
shape, and re-validating it returns it unchanged. -/
theorem validate_phone_accepted_props (s t : String)
    (h : validate_phone s = (true, t)) :
    digitCount t = 11 ∧ isCanonicalShape t = true ∧ validate_phone t = (true, t) := by
  obtain ⟨hm, hl, h1, h2, ht⟩ := validate_phone_accepted_inv h
  obtain ⟨-, hall⟩ := matchesPlusDigits_spec _ hm
  have hall' := normalizeDigits_all _ hall
  have hhead := normalizeDigits_head (lstripPlus (cleanPhone s.toList))
  subst ht
  exact validate_phone_roundtrip_core _ hall' hhead hl h1 h2

/-! ## Claim theorems -/

/-- C1: for every user with a non-empty cart, a successful `create_order`
call empties that user's cart and creates exactly one new `Order` whose
`total_amount` is the sum of `effective_price(product) × quantity` over
the cart lines whose product resolves, together with one `OrderItem` per
such line carrying `price_at_purchase = effective_price(product)` at
creation time and `subtotal = price_at_purchase × quantity`. -/
theorem C1_create_order_all_or_nothing (today : String) (db : DB) (uid : Nat)
    (n ph : String) (dt : DeliveryType) (a c : Option String)
    (h : userCart db uid ≠ []) :
    ∃ o db', create_order today db uid n ph dt a c = (some o, db') ∧
      userCart db' uid = [] ∧
      db'.orders = db.orders ++ [o] ∧
      o.total_amount = ((resolvedCart db uid).map lineAmount).sum ∧
      db'.order_items = db.order_items ++ (resolvedCart db uid).map (lineOrderItem o.id) ∧
      ∀ cp ∈ resolvedCart db uid,
        (lineOrderItem o.id cp).price_at_purchase = cp.2.effective_price ∧
        (lineOrderItem o.id cp).quantity = cp.1.quantity ∧
        (lineOrderItem o.id cp).subtotal =
          (lineOrderItem o.id cp).price_at_purchase * (cp.1.quantity : ℚ) :=
  ⟨_, _, create_order_eq today db uid n ph dt a c h,
    filter_user_out db.cart_items uid, rfl, rfl, rfl,
    fun _ _ => ⟨rfl, rfl, rfl⟩⟩

/-- Witness for C1 on the two-line scenario store. -/
theorem C1_witness :
    ∃ o db',
      create_order "20231130" db5 1 "Ivan Petrov" "+7 (999) 123-45-67"
          DeliveryType.PICKUP none none = (some o, db') ∧
      userCart db' 1 = [] ∧
      db'.orders = db5.orders ++ [o] ∧
      o.total_amount = ((resolvedCart db5 1).map lineAmount).sum ∧
      db'.order_items = db5.order_items ++ (resolvedCart db5 1).map (lineOrderItem o.id) ∧
      ∀ cp ∈ resolvedCart db5 1,
        (lineOrderItem o.id cp).price_at_purchase = cp.2.effective_price ∧
        (lineOrderItem o.id cp).quantity = cp.1.quantity ∧
        (lineOrderItem o.id cp).subtotal =
          (lineOrderItem o.id cp).price_at_purchase * (cp.1.quantity : ℚ) :=
  C1_create_order_all_or_nothing "20231130" db5 1 "Ivan Petrov" "+7 (999) 123-45-67"
    DeliveryType.PICKUP none none (by decide)

/-- C2: for every user whose cart is empty, `create_order` rejects with
the empty-cart failure (`None`) and leaves the whole store — orders,
order items, cart rows and the day counter feeding order numbers —
untouched. -/
theorem C2_empty_cart_no_side_effects (today : String) (db : DB) (uid : Nat)
    (n ph : String) (dt : DeliveryType) (a c : Option String)
    (h : userCart db uid = []) :
    create_order today db uid n ph dt a c = (none, db) := by
  unfold create_order
  simp [h]

/-- Witness for C2: user 1 has no cart rows in `dbEmptyCart`. -/
theorem C2_witness :
    create_order "20231130" dbEmptyCart 1 "Ivan Petrov" "+7 (999) 123-45-67"
        DeliveryType.PICKUP none none = (none, dbEmptyCart) :=
  C2_empty_cart_no_side_effects "20231130" dbEmptyCart 1 "Ivan Petrov"
    "+7 (999) 123-45-67" DeliveryType.PICKUP none none (by decide)

/-- C3 counterexample: `c3Product` has a discount price (200) that is not
lower than its base price (100), yet `effective_price` returns the
discount price, not the base price as the claim states. -/
theorem C3_counterexample :
    c3Product.discount_price = some 200 ∧ ¬ ((200 : ℚ) < c3Product.price) ∧
    c3Product.effective_price ≠ c3Product.price :=
  ⟨rfl, by decide, by decide⟩

/-- C3 amended: `effective_price` equals the discount price whenever one
is present and nonzero — even when it is not lower than the base price —
and equals the base price when the discount price is absent or zero. -/
theorem C3_effective_price_amended (p : Product) :
    (∀ d, p.discount_price = some d → d ≠ 0 → p.effective_price = d) ∧
    (p.discount_price = none → p.effective_price = p.price) ∧
    (p.discount_price = some 0 → p.effective_price = p.price) := by
  unfold Product.effective_price
  refine ⟨?_, ?_, ?_⟩
  · intro d hd hd0
    rw [hd]
    simp [hd0]
  · intro hd
    rw [hd]
  · intro hd
    rw [hd]
    simp

/-- Witness for C3 amended on a product with a genuine (lower) discount. -/
theorem C3_witness :
    (Product.mk 2 100 (some 150) true).effective_price = 150 :=
  (C3_effective_price_amended (Product.mk 2 100 (some 150) true)).1 150 rfl (by decide)

/-- C5: evaluation of the §8 scenario.  The cart total is 2500.00 and the
confirmed checkout creates an order with `total_amount = 2500.00`, two
order items and an empty cart — but `validate_phone "89001234567"`
REJECTS with the operator-code reason (the normalized number
`79001234567` has a zero third digit), where the claim expects
normalization to `+7 (900) 123-45-67`. -/
theorem C5_scenario_eval :
    get_cart_total db5 1 = 2500 ∧
    validate_phone "89001234567" = (false, phoneErrOp) ∧
    (create_order "20231130" db5 1 "Ivan Petrov" "+7 (900) 123-45-67"
        DeliveryType.PICKUP none none).1.map Order.total_amount = some 2500 ∧
    (create_order "20231130" db5 1 "Ivan Petrov" "+7 (900) 123-45-67"
        DeliveryType.PICKUP none none).2.order_items.length = 2 ∧
    userCart (create_order "20231130" db5 1 "Ivan Petrov" "+7 (900) 123-45-67"
        DeliveryType.PICKUP none none).2 1 = [] := by
  refine ⟨?_, by decide, ?_, ?_, ?_⟩
  · simp [get_cart_total, get_cart_items, userCart, resolveProduct, db5,
      Product.effective_price]
    norm_num
  · rw [create_order_eq _ _ _ _ _ _ _ _ (by decide)]
    simp [createdOrder, resolvedCart, resolvedOf, userCart, resolveProduct, db5,
      lineAmount, Product.effective_price]
    norm_num
  · rw [create_order_eq _ _ _ _ _ _ _ _ (by decide)]
    simp [createdDB, resolvedCart, resolvedOf, userCart, resolveProduct, db5]
  · rw [create_order_eq _ _ _ _ _ _ _ _ (by decide)]
    exact filter_user_out db5.cart_items 1

/-- C7 counterexample: on `db7` (one resolvable line, one line whose
product id 99 resolves to nothing) the Order Factory does NOT refuse: it
returns an order, and the created order items cover only product 1,
silently omitting the unresolvable line. -/
theorem C7_counterexample :
    (create_order "20250101" db7 1 "Ivan Petrov" "+7 (999) 123-45-67"
        DeliveryType.PICKUP none none).1.isSome = true ∧
    (create_order "20250101" db7 1 "Ivan Petrov" "+7 (999) 123-45-67"
        DeliveryType.PICKUP none none).2.order_items.map (fun it => it.product_id) = [1] := by
  rw [create_order_eq _ _ _ _ _ _ _ _ (by decide)]
  refine ⟨rfl, ?_⟩
  simp [createdDB, resolvedCart, resolvedOf, userCart, resolveProduct, db7, lineOrderItem]

/-- C7 amended: the cart accessor surfaces resolution failures to the
caller as a per-line flag — every cart line of the user is returned, and
the attached optional product is exactly the outcome of resolving the
line's `product_id` — but the Order Factory does not refuse to proceed:
on a non-empty cart it creates an order whose items are exactly the
resolvable lines, omitting the unresolvable ones. -/
theorem C7_flag_surfaced_but_factory_proceeds (today : String) (db : DB) (uid : Nat)
    (n ph : String) (dt : DeliveryType) (a c : Option String) :
    ((get_cart_items db uid).map Prod.fst = userCart db uid) ∧
    (∀ cp ∈ get_cart_items db uid, cp.2 = resolveProduct db cp.1.product_id) ∧
    (userCart db uid ≠ [] → ∃ o db',
        create_order today db uid n ph dt a c = (some o, db') ∧
        db'.order_items = db.order_items ++ (resolvedCart db uid).map (lineOrderItem o.id)) := by
  refine ⟨?_, ?_, ?_⟩
  · simp [get_cart_items, List.map_map, Function.comp_def]
  · intro cp hcp
    obtain ⟨c', hc', rfl⟩ := List.mem_map.mp hcp
    rfl
  · intro h
    exact ⟨_, _, create_order_eq today db uid n ph dt a c h, rfl⟩

/-- Witness for C7 amended on `db7`. -/
theorem C7_witness :
    ((get_cart_items db7 1).map Prod.fst = userCart db7 1) ∧
    (∃ o db', create_order "20250101" db7 1 "Ivan Petrov" "+7 (999) 123-45-67"
        DeliveryType.PICKUP none none = (some o, db') ∧
      db'.order_items = db7.order_items ++ (resolvedCart db7 1).map (lineOrderItem o.id)) := by
  have h := C7_flag_surfaced_but_factory_proceeds "20250101" db7 1 "Ivan Petrov"
    "+7 (999) 123-45-67" DeliveryType.PICKUP none none
  exact ⟨h.1, h.2.2 (by decide)⟩

/-- C8: every generated order number is the day tag `ORD-YYYYMMDD-`
followed by the count of existing orders carrying that tag plus one,
zero-padded to 3 digits; a successful creation raises the day's count by
exactly one (so sequential same-day counters are strictly increasing),
and on a day no existing order number belongs to, the counter restarts at
`001`. -/
theorem C8_order_number_generation (today d2 : String) (db : DB) (uid : Nat)
    (n ph : String) (dt : DeliveryType) (a c : Option String) :
    (generate_order_number db today = dayTag today ++ pad3 (countTodayOrders db today + 1)) ∧
    (∀ o db', create_order today db uid n ph dt a c = (some o, db') →
        o.order_number = dayTag today ++ pad3 (countTodayOrders db today + 1) ∧
        countTodayOrders db' today = countTodayOrders db today + 1 ∧
        countTodayOrders db today + 1 < countTodayOrders db' today + 1) ∧
    ((∀ o ∈ db.orders, likeStartsWith (dayTag d2) o.order_number = false) →
        generate_order_number db d2 = dayTag d2 ++ "001") := by
  refine ⟨rfl, ?_, ?_⟩
  · intro o db' hco
    by_cases hne : userCart db uid = []
    · rw [C2_empty_cart_no_side_effects today db uid n ph dt a c hne] at hco
      simp at hco
    · rw [create_order_eq today db uid n ph dt a c hne] at hco
      have h1 : createdOrder today db uid n ph dt a c = o := by
        have := congrArg Prod.fst hco
        simpa using this
      have h2 : createdDB today db uid n ph dt a c = db' := by
        have := congrArg Prod.snd hco
        simpa using this
      subst h1
      subst h2
      refine ⟨rfl, ?_, ?_⟩
      · show countTodayOrders (createdDB today db uid n ph dt a c) today = _
        unfold countTodayOrders createdDB
        simp [List.filter_append, likeStartsWith_append, createdOrder,
          generate_order_number]
      · have : countTodayOrders (createdDB today db uid n ph dt a c) today =
            countTodayOrders db today + 1 := by
          unfold countTodayOrders createdDB
          simp [List.filter_append, likeStartsWith_append, createdOrder,
            generate_order_number]
        omega
  · intro hnone
    unfold generate_order_number countTodayOrders
    have : db.orders.filter (fun o => likeStartsWith (dayTag d2) o.order_number) = [] := by
      simp only [List.filter_eq_nil_iff]
      intro o ho
      simp [hnone o ho]
    rw [this]
    rfl

/-- Witness for C8 on `db5` (no prior orders): the first number of the
day is `ORD-YYYYMMDD-001`, a successful creation makes the day count 1,
and a fresh day starts again at `001`. -/
theorem C8_witness :
    generate_order_number db5 "20231130" = "ORD-20231130-001" ∧
    countTodayOrders
      (createdDB "20231130" db5 1 "Ivan Petrov" "+7 (999) 123-45-67"
        DeliveryType.PICKUP none none) "20231130" = 1 ∧
    generate_order_number db5 "20231201" = "ORD-20231201-001" := by
  have h := C8_order_number_generation "20231130" "20231201" db5 1 "Ivan Petrov"
    "+7 (999) 123-45-67" DeliveryType.PICKUP none none
  refine ⟨h.1.trans (by decide), ?_, (h.2.2 (by decide)).trans (by decide)⟩
  have hco := create_order_eq "20231130" db5 1 "Ivan Petrov" "+7 (999) 123-45-67"
    DeliveryType.PICKUP none none (by decide)
  have h2 := h.2.1 _ _ hco
  rw [h2.2.1]
  decide

/-- C9: every checkout step whose validator rejects the (trimmed) input
re-prompts with the rejection reason and leaves the session — state tag
and all collected data — untouched; in particular phone `"123"` is
rejected with the digit-count reason and the session stays in the phone
state. -/
theorem C9_invalid_input_reprompts (sess : FSMSession) (text : String) :
    ((validate_name (pyStrip text)).1 = false →
        process_name sess text = (sess, StepReply.reprompt (validate_name (pyStrip text)).2)) ∧
    ((validate_phone (pyStrip text)).1 = false →
        process_phone sess text = (sess, StepReply.reprompt (validate_phone (pyStrip text)).2)) ∧
    ((validate_address (pyStrip text)).1 = false →
        process_address sess text = (sess, StepReply.reprompt (validate_address (pyStrip text)).2)) ∧
    ((validate_comment (pyStrip text)).1 = false →
        process_comment sess text = (sess, StepReply.reprompt (validate_comment (pyStrip text)).2)) ∧
    (sess.state = some OrderState.waiting_for_phone →
        process_phone sess "123" = (sess, StepReply.reprompt phoneErrLen) ∧
        (process_phone sess "123").1.state = some OrderState.waiting_for_phone) := by
  have h123 : validate_phone (pyStrip "123") = (false, phoneErrLen) := by decide
  refine ⟨?_, ?_, ?_, ?_, ?_⟩
  · intro h
    simp [process_name, h]
  · intro h
    simp [process_phone, h]
  · intro h
    simp [process_address, h]
  · intro h
    simp [process_comment, h]
  · intro h
    refine ⟨?_, ?_⟩
    · simp [process_phone, h123]
    · simp [process_phone, h123, h]

/-- Witness for C9: phone `"123"` at the phone prompt. -/
theorem C9_witness :
    (validate_phone "123").1 = false ∧
    process_phone sessPhone "123" = (sessPhone, StepReply.reprompt phoneErrLen) ∧
    (process_phone sessPhone "123").1.state = some OrderState.waiting_for_phone := by
  have h := (C9_invalid_input_reprompts sessPhone "123").2.2.2.2 rfl
  exact ⟨by decide, h.1, h.2⟩

/-- C10: a resolvable but inactive cart line is turned into an order item
by `create_order` (which never looks at `is_active`), while
`get_cart_total` sums only active resolvable lines; so when every product
price is nonnegative and some inactive resolvable line has positive
quantity and positive effective price, the created order's
`total_amount` strictly exceeds the cart total read just before. -/
theorem C10_inactive_line_raises_total (today : String) (db : DB) (uid : Nat)
    (n ph : String) (dt : DeliveryType) (a c : Option String)
    (hnn : ∀ p ∈ db.products, 0 ≤ p.effective_price)
    (hex : ∃ cp ∈ resolvedCart db uid,
        cp.2.is_active = false ∧ 0 < cp.1.quantity ∧ 0 < cp.2.effective_price)
    (o : Order) (db' : DB)
    (hco : create_order today db uid n ph dt a c = (some o, db')) :
    (∀ cp ∈ resolvedCart db uid, lineOrderItem o.id cp ∈ db'.order_items) ∧
    get_cart_total db uid =
      (((resolvedCart db uid).filter (fun cp => cp.2.is_active)).map lineAmount).sum ∧
    get_cart_total db uid < o.total_amount := by
  obtain ⟨cp0, hcp0, hact0, hq0, hp0⟩ := hex
  have hne : userCart db uid ≠ [] := by
    intro h0
    rw [resolvedCart, h0] at hcp0
    simp [resolvedOf] at hcp0
  rw [create_order_eq today db uid n ph dt a c hne] at hco
  have h1 : createdOrder today db uid n ph dt a c = o := by
    have := congrArg Prod.fst hco
    simpa using this
  have h2 : createdDB today db uid n ph dt a c = db' := by
    have := congrArg Prod.snd hco
    simpa using this
  subst h1
  subst h2
  refine ⟨?_, get_cart_total_eq db uid, ?_⟩
  · intro cp hcp
    exact List.mem_append_right _ (List.mem_map_of_mem _ hcp)
  · rw [get_cart_total_eq db uid]
    have hsplit := sum_map_split (fun cp => cp.2.is_active) lineAmount (resolvedCart db uid)
    have hpos :
        0 < (((resolvedCart db uid).filter (fun cp => !cp.2.is_active)).map lineAmount).sum := by
      refine sum_pos_of_mem_pos _ ?_ (lineAmount cp0) ?_ ?_
      · intro x hx
        obtain ⟨cp', hcp', rfl⟩ := List.mem_map.mp hx
        have hcp'' : cp' ∈ resolvedCart db uid := List.mem_of_mem_filter hcp'
        have hres := (mem_resolvedOf hcp'').2
        have hmem := resolveProduct_mem hres
        have hq : (0:ℚ) ≤ (cp'.1.quantity : ℚ) := by positivity
        exact mul_nonneg (hnn _ hmem) hq
      · exact List.mem_map_of_mem _ (List.mem_filter.mpr ⟨hcp0, by simp [hact0]⟩)
      · exact mul_pos hp0 (by exact_mod_cast hq0)
    show _ < ((resolvedCart db uid).map lineAmount).sum
    rw [hsplit]
    linarith

/-- Witness for C10 on `db10` (single inactive line, price 100, qty 2):
the cart total is 0 but the created order totals 200. -/
theorem C10_witness :
    ∃ o db', create_order "20250101" db10 1 "Ivan Petrov" "+7 (999) 123-45-67"
        DeliveryType.PICKUP none none = (some o, db') ∧
      get_cart_total db10 1 < o.total_amount := by
  have hco := create_order_eq "20250101" db10 1 "Ivan Petrov" "+7 (999) 123-45-67"
    DeliveryType.PICKUP none none (by decide)
  have h := C10_inactive_line_raises_total "20250101" db10 1 "Ivan Petrov"
    "+7 (999) 123-45-67" DeliveryType.PICKUP none none (by decide) (by decide) _ _ hco
  exact ⟨_, _, hco, h.2.2⟩

/-- C4: `validate_phone` keeps only digits and `+` characters; rejects
unless the cleaned string is an optional leading `+` followed by digits;
replaces a leading `8` by `7` and prepends `7` when the digits do not
already start with `7`; rejects when the normalized digit count is not
11; rejects when the 2nd or 3rd digit is `0`; and formats every accepted
number as `+D (DDD) DDD-DD-DD`. -/
theorem C4_validate_phone_steps (s : String) :
    (cleanPhone s.toList = s.toList.filter (fun c => c.isDigit || c == '+')) ∧
    (matchesPlusDigits (cleanPhone s.toList) = false →
        validate_phone s = (false, phoneErrChars)) ∧
    ((lstripPlus (cleanPhone s.toList)).head? = some '8' →
        phoneDigits s = '7' :: (lstripPlus (cleanPhone s.toList)).tail) ∧
    ((lstripPlus (cleanPhone s.toList)).head? ≠ some '8' →
     (lstripPlus (cleanPhone s.toList)).head? ≠ some '7' →
        phoneDigits s = '7' :: lstripPlus (cleanPhone s.toList)) ∧
    ((lstripPlus (cleanPhone s.toList)).head? = some '7' →
        phoneDigits s = lstripPlus (cleanPhone s.toList)) ∧
    (matchesPlusDigits (cleanPhone s.toList) = true → (phoneDigits s).length ≠ 11 →
        validate_phone s = (false, phoneErrLen)) ∧
    (matchesPlusDigits (cleanPhone s.toList) = true → (phoneDigits s).length = 11 →
        ((phoneDigits s).get? 1 = some '0' ∨ (phoneDigits s).get? 2 = some '0') →
        validate_phone s = (false, phoneErrOp)) ∧
    (matchesPlusDigits (cleanPhone s.toList) = true → (phoneDigits s).length = 11 →
        (phoneDigits s).get? 1 ≠ some '0' → (phoneDigits s).get? 2 ≠ some '0' →
        validate_phone s = (true, String.mk (formatChars (phoneDigits s)))) ∧
    (∀ t, validate_phone s = (true, t) → isCanonicalShape t = true) := by
  refine ⟨rfl, ?_, ?_, ?_, ?_, ?_, ?_, ?_, ?_⟩
  · intro hm
    simp only [String.toList] at hm
    unfold validate_phone
    rw [if_pos (by simp [String.toList, hm])]
  · intro h8
    simp only [String.toList] at h8
    simp [phoneDigits, normalizeDigits, h8]
  · intro h8 h7
    simp only [String.toList] at h8 h7
    simp [phoneDigits, normalizeDigits, h8, h7]
  · intro h7
    simp only [String.toList] at h7
    have h8 : ¬ (lstripPlus (cleanPhone s.data)).head? = some '8' := by
      simp [h7]
    simp [phoneDigits, normalizeDigits, h7, h8]
  · intro hm hl
    unfold phoneDigits at hl
    unfold validate_phone
    rw [if_neg (not_not_intro hm), if_pos hl]
  · intro hm hl hop
    unfold phoneDigits at hl hop
    unfold validate_phone
    rw [if_neg (not_not_intro hm), if_neg (fun hne => hne hl), if_pos hop]
  · intro hm hl h1 h2
    unfold phoneDigits at hl h1 h2 ⊢
    unfold validate_phone
    rw [if_neg (not_not_intro hm), if_neg (fun hne => hne hl),
      if_neg (by rintro (hx | hx) <;> [exact h1 hx; exact h2 hx])]
  · intro t ht
    exact (validate_phone_accepted_props s t ht).2.1

/-- Witness for C4: the acceptance branch at `+79991234567`. -/
theorem C4_witness : validate_phone "+79991234567" = (true, "+7 (999) 123-45-67") := by
  have h := (C4_validate_phone_steps "+79991234567").2.2.2.2.2.2.2.1
    (by decide) (by decide) (by decide) (by decide)
  exact h.trans (by decide)

/-- C6 counterexample: `+7 (000) 111-11-11` has the canonical
`+D (DDD) DDD-DD-DD` shape, yet feeding it to `validate_phone` is NOT
idempotent — it is rejected outright by the operator-code check. -/
theorem C6_counterexample :
    isCanonicalShape "+7 (000) 111-11-11" = true ∧
    (validate_phone "+7 (000) 111-11-11").1 = false := by
  decide

/-- C6 amended: every accepted `validate_phone` output has exactly 11
digits and the canonical `+D (DDD) DDD-DD-DD` shape, and feeding an
accepted output back through `validate_phone` is idempotent: it is
accepted again and returned unchanged. -/
theorem C6_output_canonical_and_idempotent (s t : String)
    (h : validate_phone s = (true, t)) :
    digitCount t = 11 ∧ isCanonicalShape t = true ∧ validate_phone t = (true, t) :=
  validate_phone_accepted_props s t h

/-- Witness for C6 at `89991234567`. -/
theorem C6_witness :
    digitCount "+7 (999) 123-45-67" = 11 ∧
    isCanonicalShape "+7 (999) 123-45-67" = true ∧
    validate_phone "+7 (999) 123-45-67" = (true, "+7 (999) 123-45-67") :=
  C6_output_canonical_and_idempotent "89991234567" "+7 (999) 123-45-67" (by decide)

end Store
